import Mathlib

/-!
Shallow embedding of the release-note generation scripts
(generate_release_notes.py and gh_releases.py) of the repository
amirraouf/gh-release-automation, together with theorems settling the
frozen claims about them.

Conventions of the embedding:
* Python strings are Lean String values; line splitting, prefix tests and
  stripping are implemented over the underlying character lists so that
  all definitions evaluate inside the kernel.
* Fallible Python code (raised exceptions) is modelled with Except PyError;
  the constructors are named after the Python exception that would be
  raised at that point.
* The HTTP collaborator of get_merged_prs is modelled as a function from a
  page number to an HttpResponse; the unbounded while loop is modelled with
  an explicit fuel parameter (PyError.fuelExhausted is a modelling artifact
  that never occurs for sufficient fuel).
-/

set_option autoImplicit false

/-- Python exception kinds that the embedded code can raise. The constructor
names follow the Python exception that the corresponding source line raises;
fuelExhausted is an artifact of bounding the unbounded pagination loop. -/
inductive PyError where
  | typeError
  | valueError
  | indexError
  | jsonDecodeError
  | fuelExhausted
  deriving DecidableEq

/-- Characters treated as whitespace by Python str.strip (ASCII part; the
scripts only ever strip ASCII text). -/
def isPySpace (c : Char) : Bool :=
  c == ' ' || c == '\t' || c == '\n' || c == '\r' || c == '\x0b' || c == '\x0c'

/-- Word characters of the Python regex class backslash-w (ASCII part; the
bodies the scripts parse use ASCII section labels). -/
def isWordChar (c : Char) : Bool :=
  c.isAlpha || c.isDigit || c == '_'

/-- Python str.strip: drop leading and trailing whitespace. -/
def pyStrip (s : String) : String :=
  ⟨((s.data.dropWhile isPySpace).reverse.dropWhile isPySpace).reverse⟩

/-- Bool test that p is a prefix of s, used to model Python re.match with a
pattern of plain literal characters (re.match anchors at the start of the
line and succeeds on any line extending the pattern). -/
def startsWithStr (p s : String) : Bool :=
  p.data.isPrefixOf s.data

/-- Helper of splitlines: walk the characters, cutting at line boundaries.
The accumulator holds the characters of the current (unfinished) line. -/
def splitlinesAux : List Char → List Char → List String
  | [], acc => if acc.isEmpty then [] else [⟨acc⟩]
  | '\r' :: '\n' :: rest, acc => (⟨acc⟩ : String) :: splitlinesAux rest []
  | '\r' :: rest, acc => (⟨acc⟩ : String) :: splitlinesAux rest []
  | '\n' :: rest, acc => (⟨acc⟩ : String) :: splitlinesAux rest []
  | c :: rest, acc => splitlinesAux rest (acc ++ [c])

/-- Python str.splitlines restricted to the newline, carriage return and
CRLF boundaries (the scripts only ever see newline-separated bodies; the
further Unicode boundaries Python recognises never occur in them). A
trailing boundary produces no trailing empty line, and the empty string has
no lines, exactly as in Python. -/
def splitlines (s : String) : List String :=
  splitlinesAux s.data []

/-- The compiled pattern r"### Ticket" applied with re.match: true on lines
that start with the literal marker. -/
def ticketMarker (line : String) : Bool :=
  startsWithStr "### Ticket" line

/-- Loop of extract_jira_ticket_no in generate_release_notes.py over the
list of lines: at the first line whose re.match against r"### Ticket"
succeeds, return lines[i + 1] (IndexError when that index is out of
range); if no line matches, return the empty string. -/
def extract_jira_lines : List String → Except PyError String
  | [] => .ok ""
  | l :: rest =>
    if ticketMarker l then
      match rest with
      | [] => .error .indexError
      | next :: _ => .ok next
    else extract_jira_lines rest

/-- extract_jira_ticket_no of generate_release_notes.py (lines 141 to 152):
split the body into lines and scan them with the ticket marker pattern. -/
def extract_jira_ticket_no (pr_body : String) : Except PyError String :=
  extract_jira_lines (splitlines pr_body)

/-- Loop of extract_jira_ticket_no in gh_releases.py over the list of
lines: the loop tests the truthiness of the compiled pattern object itself
(always true), so the first iteration already returns lines[0 + 1]:
IndexError on a one-line body, the second line otherwise, and the empty
string only when the body has no lines at all. -/
def gh_extract_jira_lines : List String → Except PyError String
  | [] => .ok ""
  | [_] => .error .indexError
  | _ :: next :: _ => .ok next

/-- extract_jira_ticket_no of gh_releases.py (lines 185 to 196). -/
def gh_extract_jira_ticket_no (pr_body : String) : Except PyError String :=
  gh_extract_jira_lines (splitlines pr_body)

/-- The release_notes dictionary of extract_changelog: a fixed mapping
whose keys are the six category labels, in insertion order Added, Changed,
Deprecated, Removed, Fixed, Security. -/
structure ReleaseNotes where
  Added : List String
  Changed : List String
  Deprecated : List String
  Removed : List String
  Fixed : List String
  Security : List String
  deriving DecidableEq

/-- The dictionary as initialised at the top of extract_changelog: every
category maps to an empty list. -/
def emptyNotes : ReleaseNotes := ⟨[], [], [], [], [], []⟩

/-- The items view of the dictionary, in its insertion order (Python dicts
iterate in insertion order). -/
def notesItems (n : ReleaseNotes) : List (String × List String) :=
  [("Added", n.Added), ("Changed", n.Changed), ("Deprecated", n.Deprecated),
   ("Removed", n.Removed), ("Fixed", n.Fixed), ("Security", n.Security)]

/-- Membership test current_section in release_notes of extract_changelog. -/
def knownSection (w : String) : Bool :=
  w == "Added" || w == "Changed" || w == "Deprecated" || w == "Removed" ||
  w == "Fixed" || w == "Security"

/-- release_notes[current_section].append(b) for a known section label. -/
def addBullet (n : ReleaseNotes) (sec b : String) : ReleaseNotes :=
  if sec == "Added" then { n with Added := n.Added ++ [b] }
  else if sec == "Changed" then { n with Changed := n.Changed ++ [b] }
  else if sec == "Deprecated" then { n with Deprecated := n.Deprecated ++ [b] }
  else if sec == "Removed" then { n with Removed := n.Removed ++ [b] }
  else if sec == "Fixed" then { n with Fixed := n.Fixed ++ [b] }
  else if sec == "Security" then { n with Security := n.Security ++ [b] }
  else n

/-- re.match of the pattern r"### (backslash-w+)" against a line: succeeds
when the line starts with the four characters hash hash hash space followed
by at least one word character; the capture is the maximal run of word
characters after that prefix. -/
def sectionCapture (line : String) : Option String :=
  if startsWithStr "### " line then
    let w := (line.data.drop 4).takeWhile isWordChar
    if w.isEmpty then none else some (⟨w⟩ : String)
  else none

/-- re.match of the pattern r"- (.+)" against a line: succeeds when the
line starts with dash space followed by at least one character; the capture
is everything after the dash-space prefix. -/
def bulletCapture (line : String) : Option String :=
  if startsWithStr "- " line then
    let rest := line.data.drop 2
    if rest.isEmpty then none else some (⟨rest⟩ : String)
  else none

/-- One iteration of the line loop of extract_changelog: a section match
installs the captured word as the current section when it is a key of the
dictionary and resets the current section to None otherwise; otherwise a
bullet match appends its stripped capture to the current section, but only
while a current section is active; every other line leaves the state
unchanged. -/
def processLine (st : Option String × ReleaseNotes) (line : String) :
    Option String × ReleaseNotes :=
  match sectionCapture line with
  | some w => (if knownSection w then some w else none, st.2)
  | none =>
    match bulletCapture line, st.1 with
    | some b, some sec => (st.1, addBullet st.2 sec (pyStrip b))
    | _, _ => st

/-- The line loop of extract_changelog, started with current_section None
and the all-empty dictionary. -/
def extract_changelog_lines (ls : List String) : ReleaseNotes :=
  (ls.foldl processLine (none, emptyNotes)).2

/-- extract_changelog of generate_release_notes.py (lines 155 to 187). -/
def extract_changelog (pr_body : String) : ReleaseNotes :=
  extract_changelog_lines (splitlines pr_body)

/-- The value of a decimal digit character. -/
def digitVal (c : Char) : Nat := c.toNat - 48

/-- Two decimal digit characters as a number, when both are digits. -/
def twoDigits (a b : Char) : Option Nat :=
  if a.isDigit && b.isDigit then some (digitVal a * 10 + digitVal b) else none

/-- Four decimal digit characters as a number, when all are digits. -/
def fourDigits (a b c d : Char) : Option Nat :=
  if a.isDigit && b.isDigit && c.isDigit && d.isDigit then
    some (((digitVal a * 10 + digitVal b) * 10 + digitVal c) * 10 + digitVal d)
  else none

/-- A naive datetime value as the scripts use it: six fields, compared
lexicographically (which is how Python datetime instances compare). -/
structure DT where
  year : Nat
  month : Nat
  day : Nat
  hour : Nat
  minute : Nat
  second : Nat
  deriving DecidableEq

/-- Strict comparison a < b of datetime values: lexicographic on the six
fields, as in Python. -/
def dtLt (a b : DT) : Bool :=
  Nat.blt a.year b.year || (a.year == b.year &&
    (Nat.blt a.month b.month || (a.month == b.month &&
      (Nat.blt a.day b.day || (a.day == b.day &&
        (Nat.blt a.hour b.hour || (a.hour == b.hour &&
          (Nat.blt a.minute b.minute || (a.minute == b.minute &&
            Nat.blt a.second b.second)))))))))

/-- datetime.strptime(s, r"%Y-%m-%dT%H:%M:%SZ") on the fixed-width form the
GitHub API emits for merged_at: exactly four year digits, two digits for
the other fields, with the literal separators of the format, and the field
range checks strptime performs; any other input raises ValueError (modelled
as none here and mapped to the error by the caller). -/
def strptime (s : String) : Option DT :=
  match s.data with
  | [y1, y2, y3, y4, '-', m1, m2, '-', d1, d2, 'T',
     h1, h2, ':', n1, n2, ':', s1, s2, 'Z'] =>
    match fourDigits y1 y2 y3 y4, twoDigits m1 m2, twoDigits d1 d2,
          twoDigits h1 h2, twoDigits n1 n2, twoDigits s1 s2 with
    | some y, some mo, some d, some h, some mi, some ss =>
      if 1 ≤ mo && mo ≤ 12 && 1 ≤ d && d ≤ 31 && h ≤ 23 && mi ≤ 59 && ss ≤ 61
      then some ⟨y, mo, d, h, mi, ss⟩ else none
    | _, _, _, _, _, _ => none
  | _ => none

/-- datetime.fromisoformat applied to the since argument of
generate_release_body. The argument is None exactly when no previous
release was found, and fromisoformat(None) raises TypeError; a string
argument is parsed in the two ISO forms the release API produces (date, or
date plus time), raising ValueError otherwise. Only the None branch is
relied upon by the theorems below. -/
def fromisoformat : Option String → Except PyError DT
  | none => .error .typeError
  | some s =>
    match s.data with
    | [y1, y2, y3, y4, '-', m1, m2, '-', d1, d2] =>
      match fourDigits y1 y2 y3 y4, twoDigits m1 m2, twoDigits d1 d2 with
      | some y, some mo, some d =>
        if 1 ≤ mo && mo ≤ 12 && 1 ≤ d && d ≤ 31
        then .ok ⟨y, mo, d, 0, 0, 0⟩ else .error .valueError
      | _, _, _ => .error .valueError
    | [y1, y2, y3, y4, '-', m1, m2, '-', d1, d2, 'T',
       h1, h2, ':', n1, n2, ':', s1, s2] =>
      match fourDigits y1 y2 y3 y4, twoDigits m1 m2, twoDigits d1 d2,
            twoDigits h1 h2, twoDigits n1 n2, twoDigits s1 s2 with
      | some y, some mo, some d, some h, some mi, some ss =>
        if 1 ≤ mo && mo ≤ 12 && 1 ≤ d && d ≤ 31 && h ≤ 23 && mi ≤ 59 && ss ≤ 59
        then .ok ⟨y, mo, d, h, mi, ss⟩ else .error .valueError
      | _, _, _, _, _, _ => .error .valueError
    | _ => .error .valueError

/-- The fields of one pull request object that get_merged_prs consumes. -/
structure PRJson where
  title : String
  body : String
  merged_at : Option String
  deriving DecidableEq

/-- The JSON value a page response parses to: either an array of pull
request objects, or a non-array object (for instance the error object the
GitHub API returns on a failed request). Iterating a Python dict yields its
keys, so only the keys of an object are relevant to the loop body. -/
inductive PageJson where
  | arr : List PRJson → PageJson
  | obj : List String → PageJson
  deriving DecidableEq

/-- One HTTP response of the paged pull request fetch: its status code
(which get_merged_prs never inspects) and the outcome of response.json()
(error means the body was not valid JSON, raising JSONDecodeError). -/
structure HttpResponse where
  status : Nat
  jsonBody : Except PyError PageJson

/-- The dictionary appended to merged_prs for one qualifying pull
request. -/
structure MergedPr where
  title : String
  release_notes : ReleaseNotes
  ticket_no : String
  merged_at : DT
  deriving DecidableEq

/-- The body of the inner for loop of get_merged_prs for one pull request:
skip when merged_at is null, raise ValueError when it does not parse,
append the extracted record when the merge time is strictly later than
since (extraction of the ticket can itself raise IndexError). -/
def processPr (since : DT) (acc : List MergedPr) (pr : PRJson) :
    Except PyError (List MergedPr) :=
  match pr.merged_at with
  | none => .ok acc
  | some s =>
    match strptime s with
    | none => .error .valueError
    | some dt =>
      if dtLt since dt then
        match extract_jira_ticket_no pr.body with
        | .error e => .error e
        | .ok t => .ok (acc ++ [⟨pr.title, extract_changelog pr.body, t, dt⟩])
      else .ok acc

/-- The inner for loop of get_merged_prs over one page of pull requests. -/
def processPrs (since : DT) (acc : List MergedPr) :
    List PRJson → Except PyError (List MergedPr)
  | [] => .ok acc
  | pr :: rest =>
    match processPr since acc pr with
    | .error e => .error e
    | .ok acc2 => processPrs since acc2 rest

deriving instance DecidableEq for Except

/-- Trace of one run of the pagination loop: its outcome and the list of
page numbers it requested, in order. -/
structure FetchTrace where
  result : Except PyError (List MergedPr)
  requested : List Nat
  deriving DecidableEq

/-- The while True loop of get_merged_prs, with explicit fuel. Each
iteration requests the current page; a JSON decoding failure propagates,
an empty collection (empty array, and also the falsy empty object) breaks
the loop, a non-empty object raises TypeError when the loop body indexes
its first key with a string, and a non-empty array is processed and the
loop moves to the next page. The HTTP status of the response is never
consulted, exactly as in the source. -/
def getMergedPrsAux (pages : Nat → HttpResponse) (since : DT) :
    Nat → Nat → List MergedPr → List Nat → FetchTrace
  | 0, _, _, req => ⟨.error .fuelExhausted, req⟩
  | fuel + 1, page, acc, req =>
    match (pages page).jsonBody with
    | .error e => ⟨.error e, req ++ [page]⟩
    | .ok (.obj keys) =>
      if keys.isEmpty then ⟨.ok acc, req ++ [page]⟩
      else ⟨.error .typeError, req ++ [page]⟩
    | .ok (.arr prs) =>
      if prs.isEmpty then ⟨.ok acc, req ++ [page]⟩
      else
        match processPrs since acc prs with
        | .error e => ⟨.error e, req ++ [page]⟩
        | .ok acc2 => getMergedPrsAux pages since fuel (page + 1) acc2 (req ++ [page])

/-- get_merged_prs of generate_release_notes.py (lines 191 to 217), with
its request trace: the loop starts at page 1 with an empty result list. -/
def getMergedPrsTrace (pages : Nat → HttpResponse) (since : DT) (fuel : Nat) :
    FetchTrace :=
  getMergedPrsAux pages since fuel 1 [] []

/-- get_merged_prs of generate_release_notes.py: the returned list (or the
exception that escapes the loop). -/
def get_merged_prs (since : DT) (pages : Nat → HttpResponse) (fuel : Nat) :
    Except PyError (List MergedPr) :=
  (getMergedPrsTrace pages since fuel).result

/-- One bullet append of the composition loop:
release_body += f"- (bullet_point) and a newline". -/
def renderBulletsStep (acc b : String) : String :=
  acc ++ "- " ++ b ++ "\n"

/-- One category of the composition loop: skip when its bullet list is
falsy (empty), otherwise append the level-3 heading and then every bullet
line. -/
def renderItemStep (acc : String) (item : String × List String) : String :=
  if item.2.isEmpty then acc
  else item.2.foldl renderBulletsStep (acc ++ "### " ++ item.1 ++ "\n")

/-- One pull request of the composition loop: append the level-2 heading
combining ticket number and title, then every category of the dictionary in
its iteration order. -/
def renderPrStep (acc : String) (pr : MergedPr) : String :=
  (notesItems pr.release_notes).foldl renderItemStep
    (acc ++ "## " ++ pr.ticket_no ++ " - " ++ pr.title ++ "\n")

/-- The accumulation loop of generate_release_body (lines 104 to 116 of
generate_release_notes.py): release_body starts empty and every merged pull
request appends its section. -/
def composeBody (prs : List MergedPr) : String :=
  prs.foldl renderPrStep ""

/-- generate_release_body of generate_release_notes.py (lines 100 to 116):
parse the since argument with datetime.fromisoformat, fetch the merged pull
requests, and fold them into the release body text. -/
def generate_release_body (since : Option String)
    (pages : Nat → HttpResponse) (fuel : Nat) : Except PyError String :=
  match fromisoformat since with
  | .error e => .error e
  | .ok dt =>
    match get_merged_prs dt pages fuel with
    | .error e => .error e
    | .ok prs => .ok (composeBody prs)

/-- Concatenation of a list of strings, used by the spec-side renderer. -/
def strJoin : List String → String
  | [] => ""
  | s :: rest => s ++ strJoin rest

/-- The fixed canonical category order of the specification. -/
def canonicalCategories : List String :=
  ["Added", "Changed", "Deprecated", "Removed", "Fixed", "Security"]

/-- The bullet list a category label selects from the extraction result. -/
def categoryBullets (n : ReleaseNotes) (c : String) : List String :=
  if c == "Added" then n.Added
  else if c == "Changed" then n.Changed
  else if c == "Deprecated" then n.Deprecated
  else if c == "Removed" then n.Removed
  else if c == "Fixed" then n.Fixed
  else if c == "Security" then n.Security
  else []

/-- Spec-side rendering of one category, following the words of the spec:
a category whose bullet list is non-empty contributes a level-3 heading
with the category name followed by one dash line per bullet, in order, and
an empty category contributes nothing. -/
def renderCategorySpec (n : ReleaseNotes) (c : String) : String :=
  if (categoryBullets n c).isEmpty then ""
  else "### " ++ c ++ "\n" ++
    strJoin ((categoryBullets n c).map (fun b => "- " ++ b ++ "\n"))

/-- Spec-side rendering of one extracted change, following the words of
the spec: a level-2 heading line combining the ticket identifier and the
title, then each category in the fixed canonical order. -/
def specRenderEntry (pr : MergedPr) : String :=
  "## " ++ pr.ticket_no ++ " - " ++ pr.title ++ "\n" ++
  strJoin (canonicalCategories.map (renderCategorySpec pr.release_notes))

/-- Spec-side release body composer, following the words of the spec: one
rendered section per extracted change, in sequence order, with nothing in
between. Stated for the refinement theorem of claim C4, to be compared with
composeBody translated from the source. -/
def specComposeReleaseBody (prs : List MergedPr) : String :=
  strJoin (prs.map specRenderEntry)

/-- Whether one pull request processes without an exception in the loop
body: its merged_at either is null or parses under the strptime format, and
ticket extraction from its body does not raise. -/
def prOk (pr : PRJson) : Bool :=
  (match pr.merged_at with
   | none => true
   | some s => (strptime s).isSome) &&
  (match extract_jira_ticket_no pr.body with
   | .ok _ => true
   | .error _ => false)

/-- The record get_merged_prs builds for a pull request, as an Option:
some exactly when merged_at is non-null, parses, and is strictly later than
since (and the ticket extraction returns normally). Used to state the
filtering theorems. -/
def toEntry (since : DT) (pr : PRJson) : Option MergedPr :=
  match pr.merged_at with
  | none => none
  | some s =>
    match strptime s with
    | none => none
    | some dt =>
      if dtLt since dt then
        match extract_jira_ticket_no pr.body with
        | .ok t => some ⟨pr.title, extract_changelog pr.body, t, dt⟩
        | .error _ => none
      else none

/-- A paged fetch built from a finite list of pages: page n of the API
(numbered from 1) answers with status 200 and the n-th list, and every
later page answers with the empty array. -/
def pagesOf (pageLists : List (List PRJson)) : Nat → HttpResponse :=
  fun n => ⟨200, .ok (.arr (pageLists.getD (n - 1) []))⟩

/-- Failing-input fetch for claim C5: page 1 succeeds with one merged pull
request, and every later page fails with HTTP status 500 while its error
body still parses as the empty JSON array. -/
def pagesC5 : Nat → HttpResponse :=
  fun n =>
    if n == 1 then ⟨200, .ok (.arr [⟨"pr1", "", some "2024-02-01T00:00:00Z"⟩])⟩
    else ⟨500, .ok (.arr [])⟩

/-- First entry of the end-to-end example of the spec: ticket ABC-1, title
Fix bug, one Fixed bullet, extracted from the example body. -/
def exampleEntry1 : MergedPr :=
  ⟨"Fix bug", extract_changelog "### Ticket\nABC-1\n### Fixed\n- bug one",
   "ABC-1", ⟨2024, 1, 1, 0, 0, 0⟩⟩

/-- Second entry of the end-to-end example of the spec: ticket absent
(empty string), title Add feature, one Added bullet, extracted from the
example body. -/
def exampleEntry2 : MergedPr :=
  ⟨"Add feature", extract_changelog "### Added\n- feature one",
   "", ⟨2024, 1, 2, 0, 0, 0⟩⟩

/-- Pull requests of the concrete filtering example of claim C6: merge
timestamps 2024-01-01, 2024-02-01 and null. -/
def c6PullRequests : List PRJson :=
  [⟨"pr1", "", some "2024-01-01T00:00:00Z"⟩,
   ⟨"pr2", "", some "2024-02-01T00:00:00Z"⟩,
   ⟨"pr3", "", none⟩]

/-- Cutoff of the concrete filtering example of claim C6: 2024-01-15. -/
def c6Since : DT := ⟨2024, 1, 15, 0, 0, 0⟩

lemma extract_jira_lines_no_marker :
    ∀ ls : List String, (∀ l ∈ ls, ticketMarker l = false) →
      extract_jira_lines ls = .ok ""
  | [], _ => rfl
  | l :: rest, h => by
    have hl : ticketMarker l = false := h l (by simp)
    simp only [extract_jira_lines, hl, Bool.false_eq_true, if_false]
    exact extract_jira_lines_no_marker rest (fun x hx => h x (by simp [hx]))

lemma extract_jira_lines_found :
    ∀ (ls1 : List String) (l next : String) (ls2 : List String),
      (∀ x ∈ ls1, ticketMarker x = false) → ticketMarker l = true →
      extract_jira_lines (ls1 ++ l :: next :: ls2) = .ok next
  | [], l, next, ls2, _, hl => by
    simp only [List.nil_append, extract_jira_lines, hl, if_true]
  | a :: as, l, next, ls2, h1, hl => by
    have ha : ticketMarker a = false := h1 a (by simp)
    simp only [List.cons_append, extract_jira_lines, ha, Bool.false_eq_true,
      if_false]
    exact extract_jira_lines_found as l next ls2
      (fun x hx => h1 x (by simp [hx])) hl

lemma extract_jira_lines_last :
    ∀ (ls1 : List String) (l : String),
      (∀ x ∈ ls1, ticketMarker x = false) → ticketMarker l = true →
      extract_jira_lines (ls1 ++ [l]) = .error .indexError
  | [], l, _, hl => by
    simp only [List.nil_append, extract_jira_lines, hl, if_true]
  | a :: as, l, h1, hl => by
    have ha : ticketMarker a = false := h1 a (by simp)
    simp only [List.cons_append, extract_jira_lines, ha, Bool.false_eq_true,
      if_false]
    exact extract_jira_lines_last as l (fun x hx => h1 x (by simp [hx])) hl

/-- C1 counterexample: the claim reads the marker test as exact equality of
the line with the marker and concludes that every body containing the two
consecutive lines of the marker and JIRA-123 yields JIRA-123. On this body
no line equals the marker before index 2 and the consecutive pair is
present, yet the result is the line after the first line that merely starts
with the marker, namely foo. -/
theorem claim_c1_counterexample :
    extract_jira_ticket_no "### Ticket extra\nfoo\n### Ticket\nJIRA-123" =
      .ok "foo" ∧
    splitlines "### Ticket extra\nfoo\n### Ticket\nJIRA-123" =
      ["### Ticket extra", "foo", "### Ticket", "JIRA-123"] ∧
    ("foo" : String) ≠ "JIRA-123" := by decide

/-- C1 amended: extract_jira_ticket_no of generate_release_notes.py scans
the body lines in order for the first line that starts with the literal
marker (re.match anchors at the start of the line, it does not require
exact equality); on that line it returns the immediately following line
verbatim, and when no line starts with the marker it returns the empty
string. In particular a body whose first marker line is immediately
followed by JIRA-123 yields JIRA-123 exactly. -/
theorem claim_c1_amended :
    (∀ body : String,
      extract_jira_ticket_no body = extract_jira_lines (splitlines body)) ∧
    (∀ (ls1 : List String) (l next : String) (ls2 : List String),
      (∀ x ∈ ls1, ticketMarker x = false) → ticketMarker l = true →
      extract_jira_lines (ls1 ++ l :: next :: ls2) = .ok next) ∧
    (∀ ls : List String, (∀ x ∈ ls, ticketMarker x = false) →
      extract_jira_lines ls = .ok "") :=
  ⟨fun _ => rfl, extract_jira_lines_found, extract_jira_lines_no_marker⟩

/-- Witness for the amended C1 at the concrete marker and ticket of the
claim, and at a marker-free body. -/
theorem claim_c1_witness :
    extract_jira_lines ([] ++ "### Ticket" :: "JIRA-123" :: []) =
      .ok "JIRA-123" ∧
    extract_jira_lines ["no marker here"] = .ok "" :=
  ⟨claim_c1_amended.2.1 [] "### Ticket" "JIRA-123" [] (by decide) (by decide),
   claim_c1_amended.2.2 ["no marker here"] (by decide)⟩

/-- C2: the gh_releases.py variant of extract_jira_ticket_no tests the
truthiness of the compiled pattern object instead of the match result, so
for every body of at least two lines it returns the second line, whatever
the lines contain. -/
theorem claim_c2 :
    ∀ (body l0 l1 : String) (rest : List String),
      splitlines body = l0 :: l1 :: rest →
      gh_extract_jira_ticket_no body = .ok l1 := by
  intro body l0 l1 rest h
  unfold gh_extract_jira_ticket_no
  rw [h]
  rfl

/-- Witness for C2 on a three-line body with no heading anywhere: the
result is the second line. -/
theorem claim_c2_witness :
    splitlines "first\nsecond\nthird" = "first" :: "second" :: ["third"] ∧
    gh_extract_jira_ticket_no "first\nsecond\nthird" = .ok "second" :=
  ⟨by decide,
   claim_c2 "first\nsecond\nthird" "first" "second" ["third"] (by decide)⟩

/-- C3 failing input: when no previous release is found the sentinel None
is passed for since, and generate_release_body then raises TypeError at
datetime.fromisoformat(None) before any pull request is fetched, for every
fetch collaborator and any amount of fuel; it never returns the composition
over the merged pull requests that the claim describes. -/
theorem claim_c3_code_bug :
    ∀ (pages : Nat → HttpResponse) (fuel : Nat),
      generate_release_body none pages fuel = .error .typeError :=
  fun _ _ => rfl

/-- C10 counterexample: the claim quantifies over every body whose last
line matches the marker. On this body the last line matches the marker, but
an earlier line also does, so the scan returns the line after the first
match instead of raising IndexError. -/
theorem claim_c10_counterexample :
    extract_jira_ticket_no "### Ticket\nA\n### Ticket" = .ok "A" ∧
    ticketMarker "### Ticket" = true ∧
    (Except.ok "A" : Except PyError String) ≠ .error .indexError := by decide

/-- C10 amended: extract_jira_ticket_no raises IndexError exactly when the
first marker-matching line is the last line of the body (so lines[i + 1] is
out of range), and the gh_releases.py variant raises IndexError on every
one-line body. -/
theorem claim_c10_amended :
    (∀ (ls1 : List String) (l : String),
      (∀ x ∈ ls1, ticketMarker x = false) → ticketMarker l = true →
      extract_jira_lines (ls1 ++ [l]) = .error .indexError) ∧
    (∀ body l : String, splitlines body = [l] →
      gh_extract_jira_ticket_no body = .error .indexError) := by
  refine ⟨extract_jira_lines_last, ?_⟩
  intro body l h
  unfold gh_extract_jira_ticket_no
  rw [h]
  rfl

/-- Witness for the amended C10: a body that is exactly the marker line,
and a one-line body for the gh_releases.py variant. -/
theorem claim_c10_witness :
    extract_jira_lines ([] ++ ["### Ticket"]) = .error .indexError ∧
    gh_extract_jira_ticket_no "only line" = .error .indexError :=
  ⟨claim_c10_amended.1 [] "### Ticket" (by decide) (by decide),
   claim_c10_amended.2 "only line" "only line" (by decide)⟩

lemma processLine_section (st : Option String × ReleaseNotes) (l w : String)
    (h : sectionCapture l = some w) :
    processLine st l = (if knownSection w then some w else none, st.2) := by
  simp [processLine, h]

lemma processLine_inactive (n : ReleaseNotes) (l : String)
    (h : sectionCapture l = none) : processLine (none, n) l = (none, n) := by
  simp only [processLine, h]
  cases hb : bulletCapture l <;> rfl

lemma foldl_bogus (st : Option String × ReleaseNotes) (ls2 : List String) :
    List.foldl processLine st ("### Bogus" :: "- X" :: ls2) =
    List.foldl processLine st ("### Bogus" :: ls2) := by
  simp only [List.foldl_cons]
  have h1 : processLine st "### Bogus" = (none, st.2) := by
    rw [processLine_section st "### Bogus" "Bogus" (by decide)]
    have hk : knownSection "Bogus" = false := by decide
    rw [hk]
    simp
  rw [h1, processLine_inactive st.2 "- X" (by decide)]

/-- C7: a section heading line installs the captured word as the current
category only when it is one of the six labels and resets the category to
None otherwise; while no category is active a non-heading line (so in
particular a bullet line) changes nothing; consequently inserting a bullet
line right after the unrecognized heading line of the claim leaves the
whole extraction result unchanged, wherever the pair occurs in the body:
that bullet lands in no category. -/
theorem claim_c7 :
    (∀ (st : Option String × ReleaseNotes) (l w : String),
      sectionCapture l = some w →
      processLine st l = (if knownSection w then some w else none, st.2)) ∧
    (∀ (n : ReleaseNotes) (l : String), sectionCapture l = none →
      processLine (none, n) l = (none, n)) ∧
    (∀ ls1 ls2 : List String,
      extract_changelog_lines (ls1 ++ "### Bogus" :: "- X" :: ls2) =
      extract_changelog_lines (ls1 ++ "### Bogus" :: ls2)) :=
  ⟨processLine_section, processLine_inactive, fun ls1 ls2 => by
    unfold extract_changelog_lines
    rw [List.foldl_append, List.foldl_append, foldl_bogus]⟩

/-- Witness for C7 at the concrete lines of the claim: the Bogus heading
resets an active category, the following bullet is a no-op, and the
two-line body extracts the same dictionary as the heading alone. -/
theorem claim_c7_witness :
    processLine (some "Added", emptyNotes) "### Bogus" =
      (if knownSection "Bogus" then some "Bogus" else none, emptyNotes) ∧
    processLine (none, emptyNotes) "- X" = (none, emptyNotes) ∧
    extract_changelog_lines ([] ++ "### Bogus" :: "- X" :: []) =
      extract_changelog_lines ([] ++ "### Bogus" :: []) :=
  ⟨claim_c7.1 (some "Added", emptyNotes) "### Bogus" "Bogus" (by decide),
   claim_c7.2.1 emptyNotes "- X" (by decide),
   claim_c7.2.2 [] []⟩

lemma sectionCapture_none_of_no_prefix (l : String)
    (h : startsWithStr "### " l = false) : sectionCapture l = none := by
  simp [sectionCapture, h]

lemma foldl_no_heading :
    ∀ (ls : List String) (n : ReleaseNotes),
      (∀ l ∈ ls, startsWithStr "### " l = false) →
      List.foldl processLine (none, n) ls = (none, n)
  | [], _, _ => rfl
  | l :: rest, n, h => by
    have hl := sectionCapture_none_of_no_prefix l (h l (by simp))
    rw [List.foldl_cons, processLine_inactive n l hl]
    exact foldl_no_heading rest n (fun x hx => h x (by simp [hx]))

/-- C8: the extraction result always carries exactly the six fixed
categories as keys in the canonical order; a body none of whose lines
starts with the level-3 heading prefix extracts all six categories empty;
and bullets are collected in source order, as on the two-bullet Added
example of the spec. -/
theorem claim_c8 :
    (∀ n : ReleaseNotes, (notesItems n).map Prod.fst = canonicalCategories) ∧
    (∀ body : String,
      ((splitlines body).all fun l => !startsWithStr "### " l) = true →
      extract_changelog body = emptyNotes) ∧
    extract_changelog "### Added\n- A\n- B" =
      { emptyNotes with Added := ["A", "B"] } := by
  refine ⟨fun n => rfl, ?_, by decide⟩
  intro body h
  have h2 : ∀ l ∈ splitlines body, startsWithStr "### " l = false := by
    intro l hl
    have := List.all_eq_true.mp h l hl
    simpa using this
  unfold extract_changelog extract_changelog_lines
  rw [foldl_no_heading (splitlines body) emptyNotes h2]

/-- Witness for C8 on a concrete heading-free body. -/
theorem claim_c8_witness :
    ((splitlines "hello\n- X\nworld").all fun l => !startsWithStr "### " l)
      = true ∧
    extract_changelog "hello\n- X\nworld" = emptyNotes :=
  ⟨by decide, claim_c8.2.1 "hello\n- X\nworld" (by decide)⟩

lemma foldl_factor {α : Type} (f : α → String) (g : String → α → String)
    (hg : ∀ a x, g a x = a ++ f x) (l : List α) :
    ∀ init : String, l.foldl g init = init ++ strJoin (l.map f) := by
  induction l with
  | nil => intro init; simp [strJoin, String.append_empty]
  | cons x xs ih =>
    intro init
    simp only [List.foldl_cons, List.map_cons, strJoin]
    rw [ih (g init x), hg, String.append_assoc]

lemma renderBulletsStep_factor (a b : String) :
    renderBulletsStep a b = a ++ ("- " ++ b ++ "\n") := by
  simp [renderBulletsStep, String.append_assoc]

lemma renderItemStep_factor (acc : String) (item : String × List String) :
    renderItemStep acc item =
      acc ++ (if item.2.isEmpty then "" else
        "### " ++ item.1 ++ "\n" ++
          strJoin (item.2.map fun b => "- " ++ b ++ "\n")) := by
  by_cases h : item.2.isEmpty = true
  · simp [renderItemStep, h, String.append_empty]
  · have h2 : item.2.isEmpty = false := by revert h; cases item.2.isEmpty <;> simp
    simp only [renderItemStep, h2, Bool.false_eq_true, if_false]
    rw [foldl_factor _ _ renderBulletsStep_factor]
    simp [String.append_assoc]

lemma notesItems_eq_canonical (n : ReleaseNotes) :
    notesItems n = canonicalCategories.map fun c => (c, categoryBullets n c) :=
  rfl

lemma renderPrStep_factor (acc : String) (pr : MergedPr) :
    renderPrStep acc pr = acc ++ specRenderEntry pr := by
  unfold renderPrStep specRenderEntry
  rw [foldl_factor _ _ renderItemStep_factor, notesItems_eq_canonical,
    List.map_map]
  have hfun :
      ((fun item : String × List String => if item.2.isEmpty then "" else
          "### " ++ item.1 ++ "\n" ++
            strJoin (item.2.map fun b => "- " ++ b ++ "\n")) ∘
        fun c => (c, categoryBullets pr.release_notes c)) =
      renderCategorySpec pr.release_notes := by
    funext c
    simp [renderCategorySpec, Function.comp]
  rw [hfun]
  simp [String.append_assoc]

lemma composeBody_eq_spec (prs : List MergedPr) :
    composeBody prs = specComposeReleaseBody prs := by
  unfold composeBody specComposeReleaseBody
  rw [foldl_factor _ _ renderPrStep_factor]
  exact String.empty_append _

/-- C4 counterexample: on the two entries of the end-to-end example the
composed document is not the document shown in the claim, because the
heading of the ticket-less entry carries the two spaces of the format
around its empty ticket, not the single space of the claimed line. The last
two conjuncts certify that the entries carry the extraction results of the
two example bodies. -/
theorem claim_c4_counterexample :
    composeBody [exampleEntry1, exampleEntry2] ≠
      "## ABC-1 - Fix bug\n### Fixed\n- bug one\n## - Add feature\n### Added\n- feature one\n" ∧
    extract_jira_ticket_no "### Ticket\nABC-1\n### Fixed\n- bug one" =
      .ok "ABC-1" ∧
    extract_jira_ticket_no "### Added\n- feature one" = .ok "" := by decide

/-- C4 amended: generate_release_body renders one section per entry in
sequence order, with the level-2 heading of the format hash hash space
ticket space dash space title, then the non-empty categories in the
canonical order with one dash line per bullet (the source iterates the
dictionary in its insertion order, which is exactly the canonical order of
the spec); when the ticket is empty the heading keeps both spaces of the
format, so the example composes to the document whose fourth line is hash
hash space space dash space Add feature, two spaces after the heading
marker. -/
theorem claim_c4_amended :
    (∀ prs : List MergedPr, composeBody prs = specComposeReleaseBody prs) ∧
    composeBody [exampleEntry1, exampleEntry2] =
      "## ABC-1 - Fix bug\n### Fixed\n- bug one\n##  - Add feature\n### Added\n- feature one\n" :=
  ⟨composeBody_eq_spec, by decide⟩

lemma processPr_ok (since : DT) (acc : List MergedPr) (pr : PRJson)
    (h : prOk pr = true) :
    processPr since acc pr = .ok (acc ++ (toEntry since pr).toList) := by
  unfold prOk at h
  rw [Bool.and_eq_true] at h
  obtain ⟨h1, h2⟩ := h
  unfold processPr toEntry
  cases hma : pr.merged_at with
  | none => simp
  | some s =>
    rw [hma] at h1
    cases hst : strptime s with
    | none => simp [hst] at h1
    | some dt =>
      cases het : extract_jira_ticket_no pr.body with
      | error e => simp [het] at h2
      | ok t =>
        by_cases hlt : dtLt since dt = true
        · simp [hst, het, hlt]
        · have hlt2 : dtLt since dt = false := by
            revert hlt; cases dtLt since dt <;> simp
          simp [hst, hlt2]

lemma processPrs_ok (since : DT) :
    ∀ (prs : List PRJson) (acc : List MergedPr),
      (∀ pr ∈ prs, prOk pr = true) →
      processPrs since acc prs = .ok (acc ++ prs.filterMap (toEntry since))
  | [], acc, _ => by simp [processPrs]
  | pr :: rest, acc, h => by
    have hpr := processPr_ok since acc pr (h pr (by simp))
    simp only [processPrs, hpr]
    rw [processPrs_ok since rest (acc ++ (toEntry since pr).toList)
      (fun x hx => h x (by simp [hx]))]
    cases hte : toEntry since pr <;>
      simp [hte, List.filterMap_cons, Option.toList]

lemma getMergedPrsAux_step (pages : Nat → HttpResponse) (since : DT)
    (fuel page : Nat) (acc : List MergedPr) (req : List Nat) :
    getMergedPrsAux pages since (fuel + 1) page acc req =
      match (pages page).jsonBody with
      | .error e => ⟨.error e, req ++ [page]⟩
      | .ok (.obj keys) =>
        if keys.isEmpty then ⟨.ok acc, req ++ [page]⟩
        else ⟨.error .typeError, req ++ [page]⟩
      | .ok (.arr prs) =>
        if prs.isEmpty then ⟨.ok acc, req ++ [page]⟩
        else
          match processPrs since acc prs with
          | .error e => ⟨.error e, req ++ [page]⟩
          | .ok acc2 =>
            getMergedPrsAux pages since fuel (page + 1) acc2 (req ++ [page]) :=
  rfl

lemma pagesOf_jsonBody (pageLists : List (List PRJson)) (n : Nat) :
    (pagesOf pageLists n).jsonBody = .ok (.arr (pageLists.getD (n - 1) [])) :=
  rfl

lemma pagesOf_one (prs : List PRJson) :
    (pagesOf [prs] 1).jsonBody = .ok (.arr prs) := rfl

lemma pagesOf_one_past (prs : List PRJson) :
    (pagesOf [prs] 2).jsonBody = .ok (.arr []) := rfl

lemma pagesOf_two_first (p1 p2 : List PRJson) :
    (pagesOf [p1, p2] 1).jsonBody = .ok (.arr p1) := rfl

lemma pagesOf_two_second (p1 p2 : List PRJson) :
    (pagesOf [p1, p2] 2).jsonBody = .ok (.arr p2) := rfl

lemma pagesOf_two_past (p1 p2 : List PRJson) :
    (pagesOf [p1, p2] 3).jsonBody = .ok (.arr []) := rfl

/-- C6: on a fetch whose single page is the given pull request list,
get_merged_prs returns exactly the ordered filterMap that keeps a pull
request precisely when its merged_at is non-null, parses, and is strictly
later than since; and, for pull requests that process without an exception,
the kept-entry test is some exactly under those three conditions. The fuel
shape k plus 2 covers every sufficient fuel for the one-page fetch. -/
theorem claim_c6 :
    (∀ (prs : List PRJson) (since : DT) (k : Nat),
      (∀ pr ∈ prs, prOk pr = true) →
      get_merged_prs since (pagesOf [prs]) (k + 2) =
        .ok (prs.filterMap (toEntry since))) ∧
    (∀ (since : DT) (pr : PRJson), prOk pr = true →
      ((toEntry since pr).isSome = true ↔
        ∃ s dt, pr.merged_at = some s ∧ strptime s = some dt ∧
          dtLt since dt = true)) := by
  constructor
  · intro prs since k h
    unfold get_merged_prs getMergedPrsTrace
    rw [show k + 2 = (k + 1) + 1 from rfl, getMergedPrsAux_step, pagesOf_one]
    cases prs with
    | nil => simp
    | cons p ps =>
      have hred := processPrs_ok since (p :: ps) [] h
      simp only [List.isEmpty_cons, Bool.false_eq_true, if_false, hred]
      rw [getMergedPrsAux_step, pagesOf_one_past]
      simp
  · intro since pr h
    unfold prOk at h
    rw [Bool.and_eq_true] at h
    obtain ⟨h1, h2⟩ := h
    unfold toEntry
    constructor
    · intro hs
      cases hma : pr.merged_at with
      | none => rw [hma] at hs; simp at hs
      | some s =>
        rw [hma] at hs
        cases hst : strptime s with
        | none => simp [hst] at hs
        | some dt =>
          by_cases hlt : dtLt since dt = true
          · exact ⟨s, dt, rfl, hst, hlt⟩
          · have hlt2 : dtLt since dt = false := by
              revert hlt; cases dtLt since dt <;> simp
            simp [hst, hlt2] at hs
    · rintro ⟨s, dt, hma, hst, hlt⟩
      rw [hma]
      cases het : extract_jira_ticket_no pr.body with
      | error e => simp [het] at h2
      | ok t => simp [hst, hlt, het]

/-- Witness for C6 at the concrete example of the claim: merge timestamps
2024-01-01, 2024-02-01 and null against the cutoff 2024-01-15 keep exactly
the 2024-02-01 pull request. -/
theorem claim_c6_witness :
    (∀ pr ∈ c6PullRequests, prOk pr = true) ∧
    get_merged_prs c6Since (pagesOf [c6PullRequests]) 2 =
      .ok [⟨"pr2", emptyNotes, "", ⟨2024, 2, 1, 0, 0, 0⟩⟩] ∧
    (toEntry c6Since ⟨"pr2", "", some "2024-02-01T00:00:00Z"⟩).isSome = true :=
  ⟨by decide,
   (claim_c6.1 c6PullRequests c6Since 0 (by decide)).trans (by decide),
   (claim_c6.2 c6Since ⟨"pr2", "", some "2024-02-01T00:00:00Z"⟩ (by decide)).mpr
     ⟨"2024-02-01T00:00:00Z", ⟨2024, 2, 1, 0, 0, 0⟩, rfl, by decide, by decide⟩⟩

/-- C9: on a fetch of two non-empty pages followed by the empty page, the
loop requests exactly pages 1, 2 and 3 (so never a fourth page) and the
result is the ordered concatenation of the qualifying pull requests of the
two non-empty pages. The fuel shape k plus 3 covers every sufficient
fuel. -/
theorem claim_c9 :
    ∀ (p1 p2 : List PRJson) (since : DT) (k : Nat),
      p1 ≠ [] → p2 ≠ [] → (∀ pr ∈ p1 ++ p2, prOk pr = true) →
      getMergedPrsTrace (pagesOf [p1, p2]) since (k + 3) =
        ⟨.ok ((p1 ++ p2).filterMap (toEntry since)), [1, 2, 3]⟩ := by
  intro p1 p2 since k h1 h2 h
  obtain ⟨a, as, rfl⟩ : ∃ a as, p1 = a :: as := by
    cases p1 with
    | nil => exact absurd rfl h1
    | cons a as => exact ⟨a, as, rfl⟩
  obtain ⟨b, bs, rfl⟩ : ∃ b bs, p2 = b :: bs := by
    cases p2 with
    | nil => exact absurd rfl h2
    | cons b bs => exact ⟨b, bs, rfl⟩
  unfold getMergedPrsTrace
  rw [show k + 3 = (k + 2) + 1 from rfl, getMergedPrsAux_step,
    pagesOf_two_first]
  have ha : ∀ pr ∈ a :: as, prOk pr = true :=
    fun x hx => h x (List.mem_append_left _ hx)
  have hb : ∀ pr ∈ b :: bs, prOk pr = true :=
    fun x hx => h x (List.mem_append_right _ hx)
  have hred1 := processPrs_ok since (a :: as) [] ha
  simp only [List.isEmpty_cons, Bool.false_eq_true, if_false, hred1]
  rw [show k + 2 = (k + 1) + 1 from rfl, getMergedPrsAux_step,
    pagesOf_two_second]
  have hred2 := processPrs_ok since (b :: bs)
    ([] ++ List.filterMap (toEntry since) (a :: as)) hb
  simp only [List.isEmpty_cons, Bool.false_eq_true, if_false, hred2]
  rw [getMergedPrsAux_step, pagesOf_two_past]
  simp [← List.filterMap_append]

/-- Witness for C9 on two concrete one-request pages and the minimal
fuel. -/
theorem claim_c9_witness :
    ([⟨"prA", "", some "2024-03-01T00:00:00Z"⟩] : List PRJson) ≠ [] ∧
    ([⟨"prB", "", some "2024-04-01T00:00:00Z"⟩] : List PRJson) ≠ [] ∧
    (∀ pr ∈ ([⟨"prA", "", some "2024-03-01T00:00:00Z"⟩] ++
             [⟨"prB", "", some "2024-04-01T00:00:00Z"⟩] : List PRJson),
      prOk pr = true) ∧
    getMergedPrsTrace
      (pagesOf [[⟨"prA", "", some "2024-03-01T00:00:00Z"⟩],
                [⟨"prB", "", some "2024-04-01T00:00:00Z"⟩]])
      ⟨2024, 1, 1, 0, 0, 0⟩ 3 =
      ⟨.ok [⟨"prA", emptyNotes, "", ⟨2024, 3, 1, 0, 0, 0⟩⟩,
            ⟨"prB", emptyNotes, "", ⟨2024, 4, 1, 0, 0, 0⟩⟩], [1, 2, 3]⟩ :=
  ⟨by decide, by decide, by decide,
   (claim_c9 _ _ ⟨2024, 1, 1, 0, 0, 0⟩ 0 (by decide) (by decide)
     (by decide)).trans (by decide)⟩

/-- C5 failing input evaluated: page 1 succeeds with one qualifying pull
request and page 2 fails with HTTP status 500 while its body parses to the
empty JSON array. The loop never checks the status, takes the failed page
as the end of the pagination, and returns the partial list from page 1 with
no error of any kind, contradicting the claim that a failed page is always
signalled and never silently truncates. -/
theorem claim_c5_code_bug :
    getMergedPrsTrace pagesC5 ⟨2024, 1, 1, 0, 0, 0⟩ 5 =
      ⟨.ok [⟨"pr1", emptyNotes, "", ⟨2024, 2, 1, 0, 0, 0⟩⟩], [1, 2]⟩ ∧
    (pagesC5 2).status = 500 := by decide
